import Mathlib

/-!
Verification of the impresso-essentials statistics aggregation code
(impresso_essentials/versioning/aggregators.py and impresso_essentials/utils.py)
against its natural-language specification.

The Python code is shallowly embedded: each record kind becomes a structure,
each dict-building extractor becomes a function returning a count-record
structure, dict/list index errors are made explicit with an Except monad over
a small error type, and the dask groupby/agg pipelines become list functions
(group rows by key, reduce each column with sum, the custom tunique
aggregation, or list collection).
-/

/-- Python runtime errors that the embedded code can raise.
keyError models a missing dict key, indexError models an out-of-range
list subscript such as split_id[1] on a dash-free id, valueError models
ValueError, in particular the one raised by ast.literal_eval on an argument
that is neither a str nor an AST node. -/
inductive PyErr where
  | keyError
  | indexError
  | valueError
  deriving DecidableEq, Repr

/-- Helper for pySplitDash: Python style single-separator split on a list of
characters. Like str.split(sep) with a one-character sep, empty pieces are
kept, and splitting the empty string yields one empty piece. -/
def splitOnCharAux (sep : Char) : List Char → List (List Char)
  | [] => [[]]
  | c :: cs =>
    if c = sep then
      [] :: splitOnCharAux sep cs
    else
      match splitOnCharAux sep cs with
      | [] => [[c]]
      | t :: ts => (c :: t) :: ts

/-- Embedding of the Python expression s.split("-") used by all extractors. -/
def pySplitDash (s : String) : List String :=
  (splitOnCharAux (Char.ofNat 45) s.data).map String.mk

/-- Embedding of "-".join(parts). -/
def joinDash (parts : List String) : String :=
  String.intercalate "-" parts

/-- Helper for pyTokenCount: walks the characters, counting maximal runs of
non-whitespace characters; the boolean records whether the previous character
was inside a token. -/
def tokenCountAux : List Char → Bool → Nat
  | [], _ => 0
  | c :: cs, inTok =>
    if c.isWhitespace then tokenCountAux cs false
    else if inTok then tokenCountAux cs true
    else 1 + tokenCountAux cs true

/-- Embedding of len(s.split()): the number of whitespace-separated tokens of
a Python string (split with no argument drops empty pieces). -/
def pyTokenCount (s : String) : Nat :=
  tokenCountAux s.data false

/-- Lexicographic code-point comparison of character lists: the order Python
uses to compare strings. -/
def charListLt : List Char → List Char → Bool
  | [], [] => false
  | [], _ :: _ => true
  | _ :: _, [] => false
  | a :: as, b :: bs =>
    if a.toNat < b.toNat then true
    else if b.toNat < a.toNat then false
    else charListLt as bs

/-- Python string comparison a < b (code-point lexicographic). -/
def pyStrLt (a b : String) : Bool :=
  charListLt a.data b.data

/-- Insert a string into an ascending-sorted list (helper for pySorted). -/
def insertAsc (x : String) : List String → List String
  | [] => [x]
  | y :: ys => if pyStrLt y x then y :: insertAsc x ys else x :: y :: ys

/-- Embedding of Python sorted() on a list of strings: ascending insertion
sort. In the source it is only applied to deduplicated lists, so stability
is irrelevant. -/
def pySorted (l : List String) : List String :=
  l.foldr insertAsc []

/-- Embedding of dict(Counter(l)) for a list of strings: each distinct value
paired with its number of occurrences, in first-occurrence order. -/
def counterList (l : List String) : List (String × Nat) :=
  l.dedup.map (fun s => (s, l.count s))

/-- Embedding of mapping a fallible per-record extractor over a dask bag:
the first raised error aborts the whole computation, otherwise the list of
extracted rows is produced. -/
def exceptMap {β ρ : Type} (f : β → Except PyErr ρ) : List β → Except PyErr (List ρ)
  | [] => .ok []
  | x :: xs =>
    match f x with
    | .error e => .error e
    | .ok r =>
      match exceptMap f xs with
      | .error e => .error e
      | .ok rs => .ok (r :: rs)

/-- Embedding of dataframe.groupby(by=key): one group per distinct key,
paired with the rows carrying that key. Keys are listed in first-occurrence
order (pandas sorts group keys; no claim depends on the output order). -/
def groupByKey {ρ κ : Type} [DecidableEq κ] (key : ρ → κ) (rows : List ρ) :
    List (κ × List ρ) :=
  ((rows.map key).dedup).map (fun k => (k, rows.filter (fun r => decide (key r = k))))

/-- Opaque-to-the-pipeline handle of the external dask distributed client. -/
structure Client where
  mk ::

/-- dask.distributed.progress: displays a progress bar; pure display, its
return value is discarded by every caller. -/
def progress {α : Type} (_c : Client) (_x : α) : Unit := ()

/-- The `if client is not None: progress(obj)` pattern shared by all five
pipelines. -/
def progressIf {α : Type} (client : Option Client) (x : α) : Unit :=
  match client with
  | some c => progress c x
  | none => ()

namespace Aggregators

/-- A content item of a canonical issue: item["m"]["tp"] is the only field
the code reads. -/
structure CanonicalItem where
  m_tp : String
  deriving DecidableEq, Repr

/-- Canonical JSON representation of an issue: fields id, pp (page ids) and
i (content items) are the ones counts_for_canonical_issue reads. -/
structure CanonicalIssue where
  id : String
  pp : List String
  i : List CanonicalItem
  deriving DecidableEq, Repr

/-- The count record built by counts_for_canonical_issue: np_id and year are
present only when include_np_yr was requested. -/
structure CanonicalCounts where
  np_id : Option String
  year : Option String
  issues : Nat
  pages : Nat
  content_items_out : Nat
  images : Nat
  deriving DecidableEq, Repr

/-- Embedding of counts_for_canonical_issue. With include_np_yr the id is
split on dashes and its first two components are read (an id with fewer
than two components raises IndexError at split[1]); without the flag the id
is never inspected. pages is len(set(issue.pp)), images counts the items
whose m.tp equals "image". -/
def counts_for_canonical_issue (issue : CanonicalIssue) (include_np_yr : Bool) :
    Except PyErr CanonicalCounts :=
  if include_np_yr then
    match (pySplitDash issue.id).get? 0, (pySplitDash issue.id).get? 1 with
    | some np, some yr =>
      .ok { np_id := some np, year := some yr, issues := 1,
            pages := (issue.pp).dedup.length,
            content_items_out := issue.i.length,
            images := (issue.i.filter (fun item => item.m_tp == "image")).length }
    | _, _ => .error .indexError
  else
    .ok { np_id := none, year := none, issues := 1,
          pages := (issue.pp).dedup.length,
          content_items_out := issue.i.length,
          images := (issue.i.filter (fun item => item.m_tp == "image")).length }

/-- A rebuilt (or passim) content item: id, and the optional full-text field
ft (tested with "ft" in rebuilt_ci). -/
structure RebuiltCI where
  id : String
  ft : Option String
  deriving DecidableEq, Repr

/-- The count record built by counts_for_rebuilt: np_id present only with
include_np, ft_tokens present only in non-passim mode. -/
structure RebuiltCounts where
  np_id : Option String
  year : String
  issues : String
  content_items_out : Nat
  ft_tokens : Option Nat
  deriving DecidableEq, Repr

/-- Embedding of counts_for_rebuilt. split_id[0] can never fail because a
split always returns at least one piece; split_id[1] raises IndexError when
the id has no dash. issues is the dash-join of all but the last component,
ft_tokens is len(ft.split()) or 0 when ft is absent, and is omitted in
passim mode. -/
def counts_for_rebuilt (rebuilt_ci : RebuiltCI) (include_np passim : Bool) :
    Except PyErr RebuiltCounts :=
  let split_id := pySplitDash rebuilt_ci.id
  let np_id : Option String := if include_np then split_id.get? 0 else none
  match split_id.get? 1 with
  | none => .error .indexError
  | some yr =>
    .ok { np_id := np_id, year := yr,
          issues := joinDash split_id.dropLast,
          content_items_out := 1,
          ft_tokens :=
            if passim then none
            else some (match rebuilt_ci.ft with
                       | some t => pyTokenCount t
                       | none => 0) }

/-- The per-partition transform (map stage) of the tunique aggregation:
collapse a chunk of a group column to its distinct values, as
s.apply(lambda x: list(set(x))). -/
def chunk {α : Type} [DecidableEq α] (s : List α) : List α :=
  s.dedup

/-- The cross-partition combine (reduce stage) of the tunique aggregation:
per group, summing the per-partition lists concatenates them, as
s.apply(list).groupby(level=...).sum(). -/
def agg {α : Type} (s : List (List α)) : List α :=
  s.flatten

/-- The finalize stage of the tunique aggregation: deduplicate the
concatenated values and count them, as s.apply(lambda x: len(set(x))). -/
def finalize {α : Type} [DecidableEq α] (s : List α) : Nat :=
  s.dedup.length

/-- The tunique dd.Aggregation applied to one group whose column values are
split into the given partitions: chunk on each partition, agg across
partitions, then finalize. -/
def tunique {α : Type} [DecidableEq α] (partitions : List (List α)) : Nat :=
  finalize (agg (partitions.map chunk))

/-- One output row of compute_stats_in_canonical_bag. -/
structure CanonicalStats where
  np_id : Option String
  year : Option String
  issues : Nat
  pages : Nat
  content_items_out : Nat
  images : Nat
  deriving DecidableEq, Repr

/-- The per-group reduction of the canonical pipeline, the agg dict
issues/pages/content_items_out/images -> sum, with the group key restored
as explicit columns by reset_index. -/
def canonical_agg (kg : (Option String × Option String) × List CanonicalCounts) :
    CanonicalStats :=
  { np_id := kg.1.1, year := kg.1.2,
    issues := (kg.2.map CanonicalCounts.issues).sum,
    pages := (kg.2.map CanonicalCounts.pages).sum,
    content_items_out := (kg.2.map CanonicalCounts.content_items_out).sum,
    images := (kg.2.map CanonicalCounts.images).sum }

/-- Embedding of compute_stats_in_canonical_bag: extract per-issue counts
with include_np_yr=True, group by (np_id, year), sum the four count columns,
optionally show a progress bar, and materialize the per-group records. -/
def compute_stats_in_canonical_bag (s3_canonical_issues : List CanonicalIssue)
    (client : Option Client) : Except PyErr (List CanonicalStats) :=
  match exceptMap (fun i => counts_for_canonical_issue i true) s3_canonical_issues with
  | .error e => .error e
  | .ok rows =>
    let aggregated :=
      (groupByKey (fun r => (r.np_id, r.year)) rows).map canonical_agg
    let _pb := progressIf client aggregated
    .ok aggregated

/-- One output row of compute_stats_in_rebuilt_bag: np_id restored from the
group key only with include_np, ft_tokens only in non-passim mode. -/
structure RebuiltStats where
  np_id : Option String
  year : String
  issues : Nat
  content_items_out : Nat
  ft_tokens : Option Nat
  deriving DecidableEq, Repr

/-- The per-group reduction of the rebuilt pipeline: issues -> tunique,
content_items_out -> sum, and in non-passim mode ft_tokens -> sum. -/
def rebuilt_agg (passim : Bool)
    (kg : (Option String × String) × List RebuiltCounts) : RebuiltStats :=
  { np_id := kg.1.1, year := kg.1.2,
    issues := tunique [kg.2.map RebuiltCounts.issues],
    content_items_out := (kg.2.map RebuiltCounts.content_items_out).sum,
    ft_tokens :=
      if passim then none
      else some ((kg.2.map (fun r => r.ft_tokens.getD 0)).sum) }

/-- Embedding of compute_stats_in_rebuilt_bag: extract per-article counts,
group by (np_id, year) (np_id is None on every row when include_np is
false, so this is grouping by year alone), reduce issues with the tunique
aggregation and the remaining columns with sum. The key argument is only
used for logging in the source. -/
def compute_stats_in_rebuilt_bag (rebuilt_articles : List RebuiltCI)
    (_key : String) (include_np passim : Bool) (client : Option Client) :
    Except PyErr (List RebuiltStats) :=
  match exceptMap (fun rf => counts_for_rebuilt rf include_np passim) rebuilt_articles with
  | .error e => .error e
  | .ok rows =>
    let aggregated :=
      (groupByKey (fun r => (r.np_id, r.year)) rows).map (rebuilt_agg passim)
    let _pb := progressIf client aggregated
    .ok aggregated

/-- A named-entity mention: the optional wkd_id key. The outer Option models
whether the key "wkd_id" is present at all, the inner one models a present
key holding None. -/
structure EntityMention where
  wkd_id : Option (Option String)
  deriving DecidableEq, Repr

/-- An entity-linked content item: id and the list of mentions ci["nes"]. -/
structure EntityCI where
  id : String
  nes : List EntityMention
  deriving DecidableEq, Repr

/-- The per-item row built by the lambda inside compute_stats_in_entities_bag. -/
structure EntityRow where
  np_id : String
  year : String
  issues : String
  content_items_out : Nat
  ne_mentions : Nat
  ne_entities : List String
  deriving DecidableEq, Repr

/-- An EntityRow after count_df.explode("ne_entities"): the list column is
replaced by one scalar per row; pandas puts NaN (here: none) when the list
was empty. -/
structure EntityRowExploded where
  np_id : String
  year : String
  issues : String
  content_items_out : Nat
  ne_mentions : Nat
  ne_entity : Option String
  deriving DecidableEq, Repr

/-- The per-item mapping of compute_stats_in_entities_bag: ne_mentions is
len(ci.nes); ne_entities is the sorted deduplicated list of wkd_id values
that are present and neither None nor "NIL". split[1] on the id raises
IndexError for a dash-free id. -/
def entity_ci_counts (ci : EntityCI) : Except PyErr EntityRow :=
  let split_id := pySplitDash ci.id
  match split_id.get? 0, split_id.get? 1 with
  | some np, some yr =>
    .ok { np_id := np, year := yr,
          issues := joinDash split_id.dropLast,
          content_items_out := 1,
          ne_mentions := ci.nes.length,
          ne_entities :=
            pySorted ((ci.nes.filterMap (fun m =>
              match m.wkd_id with
              | some (some w) => if w == "NIL" then none else some w
              | _ => none)).dedup) }
  | _, _ => .error .indexError

/-- pandas explode on the ne_entities column: a row with entity list
[e1, ..., ek] becomes k rows, one per entity; a row with an empty list
becomes a single row whose exploded cell is NaN (modelled as none). All the
other columns are duplicated onto every produced row. -/
def explodeEntityRow (r : EntityRow) : List EntityRowExploded :=
  match r.ne_entities with
  | [] => [{ np_id := r.np_id, year := r.year, issues := r.issues,
             content_items_out := r.content_items_out,
             ne_mentions := r.ne_mentions, ne_entity := none }]
  | es => es.map (fun e =>
      { np_id := r.np_id, year := r.year, issues := r.issues,
        content_items_out := r.content_items_out,
        ne_mentions := r.ne_mentions, ne_entity := some e })

/-- One output row of compute_stats_in_entities_bag. -/
structure EntityStats where
  np_id : String
  year : String
  issues : Nat
  content_items_out : Nat
  ne_mentions : Nat
  ne_entities : Nat
  deriving DecidableEq, Repr

/-- The per-group reduction of the entities pipeline: issues and
ne_entities -> tunique, content_items_out and ne_mentions -> sum, applied
to the exploded rows. -/
def entities_agg (kg : (String × String) × List EntityRowExploded) : EntityStats :=
  { np_id := kg.1.1, year := kg.1.2,
    issues := tunique [kg.2.map EntityRowExploded.issues],
    content_items_out := (kg.2.map EntityRowExploded.content_items_out).sum,
    ne_mentions := (kg.2.map EntityRowExploded.ne_mentions).sum,
    ne_entities := tunique [kg.2.map EntityRowExploded.ne_entity] }

/-- Embedding of compute_stats_in_entities_bag: build the per-item rows,
explode the ne_entities column (the preceding apply of
x if isinstance(x, list) else [x] is the identity here, every cell already
being a list), group by (np_id, year), and reduce issues and ne_entities
with the tunique aggregation and the two remaining count columns with sum.
Note that the explode happens before the groupby, so the sums range over
the exploded rows. -/
def compute_stats_in_entities_bag (s3_entities : List EntityCI)
    (client : Option Client) : Except PyErr (List EntityStats) :=
  match exceptMap entity_ci_counts s3_entities with
  | .error e => .error e
  | .ok rows =>
    let exploded := (rows.map explodeEntityRow).flatten
    let aggregated :=
      (groupByKey (fun r => (r.np_id, r.year)) exploded).map entities_agg
    let _pb := progressIf client aggregated
    .ok aggregated

/-- A language-identification content item: id, type tp and the optional
language ci["lg"] (a present key holding None is what the source tests
with ci["lg"] is None, so a single Option suffices). -/
structure LangCI where
  id : String
  tp : String
  lg : Option String
  deriving DecidableEq, Repr

/-- The per-item row built by the lambda inside
compute_stats_in_langident_bag. -/
structure LangRow where
  np_id : String
  year : String
  issues : String
  content_items_out : Nat
  images : Nat
  lang_fd : String
  deriving DecidableEq, Repr

/-- A group row of the langident pipeline after aggregation: lang_fd holds
the collected list of the per-item lang_fd strings of the group. -/
structure LangStatsPre where
  np_id : String
  year : String
  issues : Nat
  content_items_out : Nat
  images : Nat
  lang_fd : List String
  deriving DecidableEq, Repr

/-- One output row of compute_stats_in_langident_bag after the freq step:
lang_fd replaced by the frequency mapping dict(Counter(...)). -/
structure LangStats where
  np_id : String
  year : String
  issues : Nat
  content_items_out : Nat
  images : Nat
  lang_fd : List (String × Nat)
  deriving DecidableEq, Repr

/-- The per-item mapping of compute_stats_in_langident_bag: images is 1
exactly when tp == "img", lang_fd is the literal string "None" when lg is
None and the language code otherwise. -/
def langident_counts (ci : LangCI) : Except PyErr LangRow :=
  let split_id := pySplitDash ci.id
  match split_id.get? 0, split_id.get? 1 with
  | some np, some yr =>
    .ok { np_id := np, year := yr,
          issues := joinDash split_id.dropLast,
          content_items_out := 1,
          images := if ci.tp == "img" then 1 else 0,
          lang_fd := match ci.lg with
                     | none => "None"
                     | some l => l }
  | _, _ => .error .indexError

/-- ast.literal_eval as called inside freq, on the aggregated lang_fd cell.
After the list aggregation that cell is a Python list object; CPython
literal_eval raises ValueError (malformed node or string) for any argument
that is neither a str nor an AST node, in particular for a list, so this
call raises unconditionally. -/
def literal_eval_of_collected_list (_vals : List String) :
    Except PyErr (List String) :=
  .error .valueError

/-- The freq helper of compute_stats_in_langident_bag:
x[col] = dict(Counter(literal_eval(x[col]))). -/
def freq (r : LangStatsPre) : Except PyErr LangStats :=
  match literal_eval_of_collected_list r.lang_fd with
  | .error e => .error e
  | .ok parsed =>
    .ok { np_id := r.np_id, year := r.year, issues := r.issues,
          content_items_out := r.content_items_out, images := r.images,
          lang_fd := counterList parsed }

/-- The per-group reduction of the langident pipeline: issues -> tunique,
content_items_out and images -> sum, lang_fd -> collect as list. -/
def langident_agg (kg : (String × String) × List LangRow) : LangStatsPre :=
  { np_id := kg.1.1, year := kg.1.2,
    issues := tunique [kg.2.map LangRow.issues],
    content_items_out := (kg.2.map LangRow.content_items_out).sum,
    images := (kg.2.map LangRow.images).sum,
    lang_fd := kg.2.map LangRow.lang_fd }

/-- Embedding of compute_stats_in_langident_bag: build the per-item rows,
group by (np_id, year), reduce issues with tunique, the count columns with
sum, collect lang_fd as a list, then map freq over the per-group records
and materialize (raising whatever freq raises). -/
def compute_stats_in_langident_bag (s3_langident : List LangCI)
    (client : Option Client) : Except PyErr (List LangStats) :=
  match exceptMap langident_counts s3_langident with
  | .error e => .error e
  | .ok rows =>
    let aggregated :=
      (groupByKey (fun r => (r.np_id, r.year)) rows).map langident_agg
    let agg_bag := exceptMap freq aggregated
    let _pb := progressIf client agg_bag
    agg_bag

/-- A Solr-formatted content item: the three meta fields the code reads. -/
structure SolrCI where
  meta_journal_s : String
  meta_year_i : String
  meta_issue_id_s : String
  deriving DecidableEq, Repr

/-- The per-item row built by the lambda inside
compute_stats_in_solr_text_bag. -/
structure SolrRow where
  np_id : String
  year : String
  issues : String
  content_items_out : Nat
  deriving DecidableEq, Repr

/-- One output row of compute_stats_in_solr_text_bag. -/
structure SolrStats where
  np_id : String
  year : String
  issues : Nat
  content_items_out : Nat
  deriving DecidableEq, Repr

/-- The per-item mapping of compute_stats_in_solr_text_bag. -/
def solr_ci_counts (ci : SolrCI) : SolrRow :=
  { np_id := ci.meta_journal_s, year := ci.meta_year_i,
    issues := ci.meta_issue_id_s, content_items_out := 1 }

/-- The per-group reduction of the solr pipeline: issues -> tunique,
content_items_out -> sum. -/
def solr_agg (kg : (String × String) × List SolrRow) : SolrStats :=
  { np_id := kg.1.1, year := kg.1.2,
    issues := tunique [kg.2.map SolrRow.issues],
    content_items_out := (kg.2.map SolrRow.content_items_out).sum }

/-- Embedding of compute_stats_in_solr_text_bag: copy the three meta fields
plus content_items_out=1 into per-item rows, group by (np_id, year), reduce
issues with tunique and content_items_out with sum. No extraction step can
raise, so the result is a plain list. -/
def compute_stats_in_solr_text_bag (s3_solr_text : List SolrCI)
    (client : Option Client) : List SolrStats :=
  let rows := s3_solr_text.map solr_ci_counts
  let aggregated :=
    (groupByKey (fun r => (r.np_id, r.year)) rows).map solr_agg
  let _pb := progressIf client aggregated
  aggregated

/-- The group key an input canonical issue announces through its id, as the
canonical pipeline reads it: the first two dash-separated components. -/
def canonKey (iss : CanonicalIssue) : Option String × Option String :=
  ((pySplitDash iss.id).get? 0, (pySplitDash iss.id).get? 1)

/-- The group key of a Solr content item. -/
def solrKey (ci : SolrCI) : String × String :=
  (ci.meta_journal_s, ci.meta_year_i)

/-- The count record counts_for_canonical_issue produces for a well-formed
issue when np_id and year are requested (ghost companion used in proofs). -/
def canonRowOf (iss : CanonicalIssue) : CanonicalCounts :=
  { np_id := (pySplitDash iss.id).get? 0,
    year := (pySplitDash iss.id).get? 1,
    issues := 1,
    pages := (iss.pp).dedup.length,
    content_items_out := iss.i.length,
    images := (iss.i.filter (fun item => item.m_tp == "image")).length }

/-- Spec example: canonical issue NZZ-1900-01-01-a with 2 distinct pages and
1 image content item. -/
def exCanIssue1 : CanonicalIssue :=
  { id := "NZZ-1900-01-01-a",
    pp := ["NZZ-1900-01-01-a-p0001", "NZZ-1900-01-01-a-p0002"],
    i := [{ m_tp := "image" }] }

/-- Spec example: canonical issue NZZ-1900-01-02-a with 3 distinct pages and
no image content item. -/
def exCanIssue2 : CanonicalIssue :=
  { id := "NZZ-1900-01-02-a",
    pp := ["NZZ-1900-01-02-a-p0001", "NZZ-1900-01-02-a-p0002",
           "NZZ-1900-01-02-a-p0003"],
    i := [] }

/-- Spec example input for the canonical pipeline. -/
def exCanIssues : List CanonicalIssue :=
  [exCanIssue1, exCanIssue2]

/-- Spec example: three rebuilt articles from issues GDL-1950-01-01-a,
GDL-1950-01-01-a and GDL-1950-01-02-a with full texts of 10, 5 and 7
whitespace tokens. -/
def exRebuiltArticles : List RebuiltCI :=
  [{ id := "GDL-1950-01-01-a-i0001", ft := some "t t t t t t t t t t" },
   { id := "GDL-1950-01-01-a-i0002", ft := some "t t t t t" },
   { id := "GDL-1950-01-02-a-i0001", ft := some "t t t t t t t" }]

/-- An entity item with two mentions linked to the two distinct entities Q1
and Q2. -/
def exEntityQ12 : EntityCI :=
  { id := "NZZ-1900-01-01-a-i0001",
    nes := [{ wkd_id := some (some "Q1") }, { wkd_id := some (some "Q2") }] }

/-- An entity item with two mentions linked to the two distinct entities Q2
and Q3. -/
def exEntityQ23 : EntityCI :=
  { id := "NZZ-1900-01-02-a-i0001",
    nes := [{ wkd_id := some (some "Q2") }, { wkd_id := some (some "Q3") }] }

/-- An entity item with an empty mention list, hence no linkable entity. -/
def exEntityEmpty : EntityCI :=
  { id := "NZZ-1900-01-01-a-i0001", nes := [] }

/-- A langident item of type ar with language fr. -/
def exLangAr : LangCI :=
  { id := "NZZ-1900-01-01-a-i0001", tp := "ar", lg := some "fr" }

/-- A langident item of type img with no detected language. -/
def exLangImg : LangCI :=
  { id := "NZZ-1900-01-02-a-i0001", tp := "img", lg := none }

end Aggregators

namespace Utils

/-- Python range(start, stop, step) for a positive step: the ascending
arithmetic progression below stop. -/
def pyRangeStep (start stop step : Nat) : List Nat :=
  (List.range ((stop - start + step - 1) / step)).map (fun j => start + j * step)

/-- The successive slices l[i : i + chunksize] produced by the loop
for i in range(0, len(l), chunksize). -/
def chunksOf {α : Type} (l_to_chunk : List α) (chunksize : Nat) : List (List α) :=
  (pyRangeStep 0 l_to_chunk.length chunksize).map
    (fun i => (l_to_chunk.drop i).take chunksize)

/-- Embedding of utils.chunk: yields the successive chunksize-sized slices
of the list. A chunksize of zero raises ValueError (range arg 3 must not be
zero) as soon as the generator is consumed. -/
def chunk {α : Type} (l_to_chunk : List α) (chunksize : Nat) :
    Except PyErr (List (List α)) :=
  if chunksize = 0 then .error .valueError
  else .ok (chunksOf l_to_chunk chunksize)

end Utils


open Aggregators

/-! Helper lemmas shared by several claim theorems. -/

/-- Mapping a fallible extractor over a bag whose records all extract
successfully produces the list of extracted rows. -/
theorem exceptMap_ok {β ρ : Type} (f : β → Except PyErr ρ) (g : β → ρ) :
    ∀ (l : List β), (∀ x ∈ l, f x = .ok (g x)) → exceptMap f l = .ok (l.map g) := by
  intro l
  induction l with
  | nil => intro _; rfl
  | cons x xs ih =>
    intro h
    have hx := h x (List.mem_cons_self x xs)
    have hxs := ih (fun y hy => h y (List.mem_cons_of_mem x hy))
    simp [exceptMap, hx, hxs]

/-- The keys of the per-group records produced from a groupByKey are exactly
the deduplicated keys of the rows, whenever the per-group reduction restores
the group key. -/
theorem groupByKey_keys {ρ κ σ : Type} [DecidableEq κ] (key : ρ → κ) (rows : List ρ)
    (f : κ × List ρ → σ) (out : σ → κ) (hf : ∀ kg, out (f kg) = kg.1) :
    ((groupByKey key rows).map f).map out = (rows.map key).dedup := by
  unfold groupByKey
  rw [List.map_map, List.map_map]
  have hcomp : ((out ∘ f) ∘ fun k => (k, rows.filter (fun r => decide (key r = k)))) = id := by
    funext k; simp [Function.comp, hf]
  rw [hcomp, List.map_id]

/-- On an issue whose id has at least two dash-separated components, the
canonical extractor with include_np_yr=True succeeds and produces the
canonRowOf record. -/
theorem counts_canonical_ok (iss : CanonicalIssue)
    (h : 2 ≤ (pySplitDash iss.id).length) :
    counts_for_canonical_issue iss true = .ok (canonRowOf iss) := by
  rcases hs : pySplitDash iss.id with _ | ⟨a, _ | ⟨b, rest⟩⟩
  · rw [hs] at h; simp at h
  · rw [hs] at h; simp at h
  · simp [counts_for_canonical_issue, canonRowOf, hs]

/-- Concatenating K successive n-sized slices of a list of length at most
K * n restores the list. -/
theorem flatten_slices {α : Type} (n : Nat) :
    ∀ (K : Nat) (l : List α), l.length ≤ K * n →
      ((List.range K).map (fun j => (l.drop (j * n)).take n)).flatten = l := by
  intro K
  induction K with
  | zero =>
    intro l h
    simp only [Nat.zero_mul, Nat.le_zero] at h
    simp [List.eq_nil_of_length_eq_zero h]
  | succ K ih =>
    intro l h
    rw [List.range_succ_eq_map, List.map_cons, List.map_map, List.flatten_cons]
    have hfun : ((fun j => (l.drop (j * n)).take n) ∘ Nat.succ) =
        (fun j => (((l.drop n).drop (j * n)).take n)) := by
      funext j
      simp only [Function.comp, List.drop_drop]
      have hsm : j * n + n = Nat.succ j * n := (Nat.succ_mul j n).symm
      rw [Nat.add_comm, hsm]
    rw [hfun, ih (l.drop n) (by
      rw [List.length_drop]
      have hs : (K+1) * n = K * n + n := Nat.succ_mul K n
      omega)]
    simp only [Nat.zero_mul, List.drop_zero]
    exact List.take_append_drop n l

/-- The ceiling-division slice count covers the whole list. -/
theorem slices_len_bound (len n : Nat) (hn : 0 < n) :
    len ≤ ((len + n - 1) / n) * n := by
  have hdm := Nat.div_add_mod (len + n - 1) n
  have hml : (len + n - 1) % n < n := Nat.mod_lt _ hn
  have hc : ((len + n - 1) / n) * n = n * ((len + n - 1) / n) := Nat.mul_comm _ _
  omega

/-- Every slice before the last one of a ceiling-division chunking is full:
at least n elements remain at its start offset. -/
theorem slice_full (len n j : Nat) (hn : 0 < n)
    (hj : j + 1 < (len + n - 1) / n) : n ≤ len - j * n := by
  have hdm := Nat.div_add_mod (len + n - 1) n
  have hml : (len + n - 1) % n < n := Nat.mod_lt _ hn
  have h2 : (j + 2) * n ≤ ((len + n - 1) / n) * n := Nat.mul_le_mul_right n (by omega)
  have h3 : (j + 2) * n = j * n + n + n := by ring
  have h5 : ((len + n - 1) / n) * n = n * ((len + n - 1) / n) := Nat.mul_comm _ _
  omega

/-! The claim theorems. -/

/-- Claim C1: for every group and every way of splitting the group's field
values across partitions (ps is the list of per-partition value lists), the
three-stage tunique aggregation - chunk per partition, agg across
partitions, finalize - returns exactly the number of distinct values across
all partitions, len(set(all values)); the result therefore does not depend
on the partitioning, only on the multiset of values. -/
theorem tunique_counts_distinct_values {α : Type} [DecidableEq α]
    (ps : List (List α)) :
    finalize (agg (ps.map chunk)) = ps.flatten.dedup.length ∧
    tunique ps = ps.flatten.dedup.length := by
  have hmain : finalize (agg (ps.map chunk)) = ps.flatten.dedup.length := by
    unfold finalize agg chunk
    rw [← List.card_toFinset, ← List.card_toFinset]
    congr 1
    apply List.toFinset.ext
    intro x
    simp [List.mem_flatten]
  exact ⟨hmain, hmain⟩

/-- Claim C2 (code bug): the entities pipeline explodes the ne_entities list
before the group-by, so the sum-reduced columns range over the exploded
rows. The extractor gives the single item exEntityQ12 (two mentions, two
linked entities) content_items_out = 1 and ne_mentions = 2, but the
pipeline outputs content_items_out = 2 and ne_mentions = 4: each sum is
inflated by the factor len(ne_entities), contradicting the claim that
sum-reduced fields equal the arithmetic sum of the extracted per-record
values. -/
theorem entities_pipeline_sum_inflated_at_failing_input :
    entity_ci_counts exEntityQ12 = .ok
      { np_id := "NZZ", year := "1900", issues := "NZZ-1900-01-01-a",
        content_items_out := 1, ne_mentions := 2, ne_entities := ["Q1", "Q2"] }
  ∧ compute_stats_in_entities_bag [exEntityQ12] none = .ok
      [{ np_id := "NZZ", year := "1900", issues := 1,
         content_items_out := 2, ne_mentions := 4, ne_entities := 2 }] :=
  ⟨rfl, rfl⟩

/-- Claim C3 (counterexample): on the malformed id "NZZ" (no dash) the
canonical extractor called without the include flag raises nothing at all
and returns an ordinary (zeroed) count record, because that code path never
inspects the id; no MalformedRecordError exists anywhere in the code. -/
theorem canonical_extractor_malformed_id_counterexample :
    counts_for_canonical_issue { id := "NZZ", pp := [], i := [] } false =
      .ok { np_id := none, year := none, issues := 1, pages := 0,
            content_items_out := 0, images := 0 } :=
  rfl

/-- Claim C3 (amended): there is no MalformedRecordError. The canonical
extractor with include_np_yr=False returns a count record without ever
inspecting the id, even for a dash-free id; every extractor that does read
the id (canonical with include_np_yr=True, rebuilt, entities, langident)
raises a generic IndexError at split_id[1] when the id has fewer than two
dash-separated components. -/
theorem extractors_malformed_id_amended (issue : CanonicalIssue)
    (rci : RebuiltCI) (eci : EntityCI) (lci : LangCI) (include_np passim : Bool)
    (h1 : (pySplitDash issue.id).length < 2)
    (h2 : (pySplitDash rci.id).length < 2)
    (h3 : (pySplitDash eci.id).length < 2)
    (h4 : (pySplitDash lci.id).length < 2) :
    counts_for_canonical_issue issue false = .ok
      { np_id := none, year := none, issues := 1,
        pages := (issue.pp).dedup.length,
        content_items_out := issue.i.length,
        images := (issue.i.filter (fun item => item.m_tp == "image")).length }
  ∧ counts_for_canonical_issue issue true = .error .indexError
  ∧ counts_for_rebuilt rci include_np passim = .error .indexError
  ∧ entity_ci_counts eci = .error .indexError
  ∧ langident_counts lci = .error .indexError := by
  refine ⟨rfl, ?_, ?_, ?_, ?_⟩
  · have hn : (pySplitDash issue.id)[1]? = none := List.getElem?_eq_none (by omega)
    cases h0 : (pySplitDash issue.id)[0]? <;>
      simp [counts_for_canonical_issue, hn, h0]
  · have hn : (pySplitDash rci.id)[1]? = none := List.getElem?_eq_none (by omega)
    simp [counts_for_rebuilt, hn]
  · have hn : (pySplitDash eci.id)[1]? = none := List.getElem?_eq_none (by omega)
    cases h0 : (pySplitDash eci.id)[0]? <;> simp [entity_ci_counts, hn, h0]
  · have hn : (pySplitDash lci.id)[1]? = none := List.getElem?_eq_none (by omega)
    cases h0 : (pySplitDash lci.id)[0]? <;> simp [langident_counts, hn, h0]

/-- Witness for the amended claim C3, at the concrete malformed records with
id "NZZ". -/
theorem extractors_malformed_id_amended_witness :
    (pySplitDash "NZZ").length < 2
  ∧ counts_for_rebuilt { id := "NZZ", ft := none } false false = .error .indexError
  ∧ entity_ci_counts { id := "NZZ", nes := [] } = .error .indexError
  ∧ langident_counts { id := "NZZ", tp := "ar", lg := none } = .error .indexError
  ∧ counts_for_canonical_issue { id := "NZZ", pp := [], i := [] } true =
      .error .indexError := by
  have h : (pySplitDash "NZZ").length < 2 := by decide
  obtain ⟨_, hc, hr, he, hl⟩ := extractors_malformed_id_amended
    { id := "NZZ", pp := [], i := [] } { id := "NZZ", ft := none }
    { id := "NZZ", nes := [] } { id := "NZZ", tp := "ar", lg := none }
    false false h h h h
  exact ⟨h, hr, he, hl, hc⟩

/-- Claim C4: for every well-formed canonical issue the extractor returns
issues=1, pages = number of distinct page ids, images = number of content
items of type image, with np_id and year present exactly when requested via
the include flag; and the two spec example issues aggregate to the single
(NZZ, 1900) record with issues=2, pages=5, images=1. -/
theorem canonical_extractor_and_aggregation_spec (issue : CanonicalIssue)
    (h : 2 ≤ (pySplitDash issue.id).length) :
    counts_for_canonical_issue issue false = .ok
      { np_id := none, year := none, issues := 1,
        pages := (issue.pp).dedup.length,
        content_items_out := issue.i.length,
        images := (issue.i.filter (fun item => item.m_tp == "image")).length }
  ∧ counts_for_canonical_issue issue true = .ok
      { np_id := some ((pySplitDash issue.id).getD 0 ""),
        year := some ((pySplitDash issue.id).getD 1 ""), issues := 1,
        pages := (issue.pp).dedup.length,
        content_items_out := issue.i.length,
        images := (issue.i.filter (fun item => item.m_tp == "image")).length }
  ∧ compute_stats_in_canonical_bag exCanIssues none = .ok
      [{ np_id := some "NZZ", year := some "1900", issues := 2, pages := 5,
         content_items_out := 1, images := 1 }] := by
  refine ⟨rfl, ?_, rfl⟩
  rcases hs : pySplitDash issue.id with _ | ⟨a, _ | ⟨b, rest⟩⟩
  · rw [hs] at h; simp at h
  · rw [hs] at h; simp at h
  · simp [counts_for_canonical_issue, hs]

/-- Witness for claim C4 at the concrete spec example. -/
theorem canonical_extractor_and_aggregation_spec_witness :
    2 ≤ (pySplitDash exCanIssue1.id).length
  ∧ compute_stats_in_canonical_bag exCanIssues none = .ok
      [{ np_id := some "NZZ", year := some "1900", issues := 2, pages := 5,
         content_items_out := 1, images := 1 }] :=
  ⟨by decide,
   (canonical_extractor_and_aggregation_spec exCanIssue1 (by decide)).2.2⟩

/-- Claim C5: for every well-formed rebuilt/passim article the extractor
returns the article's issue id (the dash-join of all id components but the
last), content_items_out=1, and ft_tokens = whitespace-token count of the
full text (0 when absent) in non-passim mode while the field is omitted
(none) in passim mode; and the three spec example articles aggregate for
(GDL, 1950) to issues=2 distinct, content_items_out=3, ft_tokens=22. -/
theorem rebuilt_extractor_and_aggregation_spec (rci : RebuiltCI)
    (include_np passim : Bool) (h : 2 ≤ (pySplitDash rci.id).length) :
    counts_for_rebuilt rci include_np passim = .ok
      { np_id := if include_np then some ((pySplitDash rci.id).getD 0 "") else none,
        year := (pySplitDash rci.id).getD 1 "",
        issues := joinDash (pySplitDash rci.id).dropLast,
        content_items_out := 1,
        ft_tokens := if passim then none
                     else some (match rci.ft with
                                | some t => pyTokenCount t
                                | none => 0) }
  ∧ compute_stats_in_rebuilt_bag exRebuiltArticles "" true false none = .ok
      [{ np_id := some "GDL", year := "1950", issues := 2,
         content_items_out := 3, ft_tokens := some 22 }] := by
  refine ⟨?_, rfl⟩
  rcases hs : pySplitDash rci.id with _ | ⟨a, _ | ⟨b, rest⟩⟩
  · rw [hs] at h; simp at h
  · rw [hs] at h; simp at h
  · simp [counts_for_rebuilt, hs]

/-- Witness for claim C5 at the concrete spec example. -/
theorem rebuilt_extractor_and_aggregation_spec_witness :
    2 ≤ (pySplitDash "GDL-1950-01-01-a-i0001").length
  ∧ compute_stats_in_rebuilt_bag exRebuiltArticles "" true false none = .ok
      [{ np_id := some "GDL", year := "1950", issues := 2,
         content_items_out := 3, ft_tokens := some 22 }] :=
  ⟨by decide,
   (rebuilt_extractor_and_aggregation_spec { id := "GDL-1950-01-01-a-i0001", ft := none }
     true false (by decide)).2⟩

/-- Claim C6 (code bug): the extractor is right - an item with no linkable
entity gets ne_entities = [] - but exploding that empty list produces a NaN
row, and the tunique reduction then counts the NaN as one distinct entity:
a group holding only exEntityEmpty (zero entity identifiers) outputs
ne_entities = 1 instead of 0. The spec example with lists [Q1, Q2] and
[Q2, Q3] is unaffected and correctly yields the distinct count 3. -/
theorem entities_nan_counted_at_empty_entity_list :
    entity_ci_counts exEntityEmpty = .ok
      { np_id := "NZZ", year := "1900", issues := "NZZ-1900-01-01-a",
        content_items_out := 1, ne_mentions := 0, ne_entities := [] }
  ∧ compute_stats_in_entities_bag [exEntityEmpty] none = .ok
      [{ np_id := "NZZ", year := "1900", issues := 1,
         content_items_out := 1, ne_mentions := 0, ne_entities := 1 }]
  ∧ compute_stats_in_entities_bag [exEntityQ12, exEntityQ23] none = .ok
      [{ np_id := "NZZ", year := "1900", issues := 2,
         content_items_out := 4, ne_mentions := 8, ne_entities := 3 }] :=
  ⟨rfl, rfl, rfl⟩

/-- Claim C7 (code bug): the langident extractor is right - images = 1
exactly for type img, lang_fd is the language code or the literal string
"None" - but the freq step applies ast.literal_eval to the collected lang_fd
cell, which after the list aggregation is a Python list and not a string,
so literal_eval raises ValueError and the pipeline never produces the
combined frequency count: on any nonempty input the call fails. -/
theorem langident_literal_eval_valueerror :
    langident_counts exLangAr = .ok
      { np_id := "NZZ", year := "1900", issues := "NZZ-1900-01-01-a",
        content_items_out := 1, images := 0, lang_fd := "fr" }
  ∧ langident_counts exLangImg = .ok
      { np_id := "NZZ", year := "1900", issues := "NZZ-1900-01-02-a",
        content_items_out := 1, images := 1, lang_fd := "None" }
  ∧ compute_stats_in_langident_bag [exLangAr] none = .error .valueError :=
  ⟨rfl, rfl, rfl⟩

/-- Claim C8: the group key of every output record of the canonical and solr
pipelines comes from at least one input record, the output keys are free of
duplicates, and every input record's key appears in exactly one output
record (its own group): no record is dropped and none is double counted. -/
theorem group_keys_partition_inputs (issues : List CanonicalIssue)
    (h : ∀ iss ∈ issues, 2 ≤ (pySplitDash iss.id).length) :
    (∃ stats, compute_stats_in_canonical_bag issues none = .ok stats ∧
      stats.map (fun s => (s.np_id, s.year)) = (issues.map canonKey).dedup ∧
      (stats.map (fun s => (s.np_id, s.year))).Nodup ∧
      (∀ iss ∈ issues, canonKey iss ∈ stats.map (fun s => (s.np_id, s.year))) ∧
      (∀ k ∈ stats.map (fun s => (s.np_id, s.year)), ∃ iss ∈ issues, canonKey iss = k))
  ∧ (∀ (cis : List SolrCI) (client : Option Client),
      (compute_stats_in_solr_text_bag cis client).map (fun s => (s.np_id, s.year)) =
        (cis.map solrKey).dedup ∧
      ((compute_stats_in_solr_text_bag cis client).map (fun s => (s.np_id, s.year))).Nodup ∧
      (∀ ci ∈ cis, solrKey ci ∈
        (compute_stats_in_solr_text_bag cis client).map (fun s => (s.np_id, s.year))) ∧
      (∀ k ∈ (compute_stats_in_solr_text_bag cis client).map (fun s => (s.np_id, s.year)),
        ∃ ci ∈ cis, solrKey ci = k)) := by
  constructor
  · have hrows : exceptMap (fun i => counts_for_canonical_issue i true) issues =
        .ok (issues.map canonRowOf) :=
      exceptMap_ok _ _ issues (fun iss hm => counts_canonical_ok iss (h iss hm))
    have hkeys : (((groupByKey (fun r : CanonicalCounts => (r.np_id, r.year))
        (issues.map canonRowOf)).map canonical_agg).map (fun s => (s.np_id, s.year))) =
        (issues.map canonKey).dedup := by
      have hk := groupByKey_keys (fun r : CanonicalCounts => (r.np_id, r.year))
        (issues.map canonRowOf) canonical_agg (fun s => (s.np_id, s.year)) (fun kg => rfl)
      simp only [List.map_map] at hk ⊢
      exact hk
    refine ⟨(groupByKey (fun r : CanonicalCounts => (r.np_id, r.year))
      (issues.map canonRowOf)).map canonical_agg, ?_, hkeys, ?_, ?_, ?_⟩
    · unfold compute_stats_in_canonical_bag
      rw [hrows]
    · rw [hkeys]; exact List.nodup_dedup _
    · intro iss hm; rw [hkeys]
      exact List.mem_dedup.mpr (List.mem_map_of_mem canonKey hm)
    · intro k hk; rw [hkeys] at hk
      obtain ⟨iss, hm, he⟩ := List.mem_map.mp (List.mem_dedup.mp hk)
      exact ⟨iss, hm, he⟩
  · intro cis client
    have hpipe : (compute_stats_in_solr_text_bag cis client).map
        (fun s => (s.np_id, s.year)) = (cis.map solrKey).dedup := by
      have hk := groupByKey_keys (fun r : SolrRow => (r.np_id, r.year))
        (cis.map solr_ci_counts) solr_agg (fun s => (s.np_id, s.year)) (fun kg => rfl)
      unfold compute_stats_in_solr_text_bag
      simp only [List.map_map] at hk ⊢
      exact hk
    refine ⟨hpipe, ?_, ?_, ?_⟩
    · rw [hpipe]; exact List.nodup_dedup _
    · intro ci hm; rw [hpipe]
      exact List.mem_dedup.mpr (List.mem_map_of_mem solrKey hm)
    · intro k hk; rw [hpipe] at hk
      obtain ⟨ci, hm, he⟩ := List.mem_map.mp (List.mem_dedup.mp hk)
      exact ⟨ci, hm, he⟩

/-- Witness for claim C8 at the concrete two-issue canonical example. -/
theorem group_keys_partition_inputs_witness :
    (∀ iss ∈ exCanIssues, 2 ≤ (pySplitDash iss.id).length)
  ∧ (∃ stats, compute_stats_in_canonical_bag exCanIssues none = .ok stats ∧
      stats.map (fun s => (s.np_id, s.year)) = (exCanIssues.map canonKey).dedup ∧
      (stats.map (fun s => (s.np_id, s.year))).Nodup) := by
  have h : ∀ iss ∈ exCanIssues, 2 ≤ (pySplitDash iss.id).length := by decide
  obtain ⟨⟨stats, hp, hk, hnd, _, _⟩, _⟩ := group_keys_partition_inputs exCanIssues h
  exact ⟨h, stats, hp, hk, hnd⟩

/-- Claim C9: supplying a client/progress handle to any of the five
pipelines changes nothing about the returned statistics records; the handle
only feeds the progress display. -/
theorem client_handle_does_not_alter_results :
    (∀ (issues : List CanonicalIssue) (c : Client),
      compute_stats_in_canonical_bag issues (some c) =
        compute_stats_in_canonical_bag issues none)
  ∧ (∀ (arts : List RebuiltCI) (k : String) (include_np passim : Bool) (c : Client),
      compute_stats_in_rebuilt_bag arts k include_np passim (some c) =
        compute_stats_in_rebuilt_bag arts k include_np passim none)
  ∧ (∀ (cis : List EntityCI) (c : Client),
      compute_stats_in_entities_bag cis (some c) =
        compute_stats_in_entities_bag cis none)
  ∧ (∀ (cis : List LangCI) (c : Client),
      compute_stats_in_langident_bag cis (some c) =
        compute_stats_in_langident_bag cis none)
  ∧ (∀ (cis : List SolrCI) (c : Client),
      compute_stats_in_solr_text_bag cis (some c) =
        compute_stats_in_solr_text_bag cis none) :=
  ⟨fun _ _ => rfl, fun _ _ _ _ _ => rfl, fun _ _ => rfl, fun _ _ => rfl,
   fun _ _ => rfl⟩

/-- Claim C10: for every list and every positive chunksize, utils.chunk
yields consecutive slices whose in-order concatenation restores the list,
and every yielded chunk except possibly the last has length exactly
chunksize. -/
theorem utils_chunk_spec {α : Type} (l : List α) (n : Nat) (h : 0 < n) :
    Utils.chunk l n = Except.ok (Utils.chunksOf l n)
  ∧ (Utils.chunksOf l n).flatten = l
  ∧ (∀ j, j + 1 < (Utils.chunksOf l n).length →
      ((Utils.chunksOf l n).getD j []).length = n) := by
  have hch : Utils.chunksOf l n =
      (List.range ((l.length + n - 1) / n)).map (fun j => (l.drop (j * n)).take n) := by
    unfold Utils.chunksOf Utils.pyRangeStep
    rw [List.map_map]
    simp [Function.comp, Nat.zero_add, Nat.sub_zero]
  refine ⟨by unfold Utils.chunk; rw [if_neg (by omega)], ?_, ?_⟩
  · rw [hch]
    exact flatten_slices n _ l (slices_len_bound l.length n h)
  · intro j hj
    rw [hch] at hj ⊢
    rw [List.length_map, List.length_range] at hj
    have hjlt : j < ((List.range ((l.length + n - 1) / n)).map
        (fun j => (l.drop (j * n)).take n)).length := by
      rw [List.length_map, List.length_range]; omega
    rw [List.getD_eq_getElem _ _ hjlt]
    simp only [List.getElem_map, List.getElem_range]
    rw [List.length_take, List.length_drop]
    have hfull := slice_full l.length n j h hj
    omega

/-- Witness for claim C10 at the concrete input [1,2,3,4,5] with
chunksize 2, whose chunks evaluate to [[1,2],[3,4],[5]]. -/
theorem utils_chunk_spec_witness :
    (0:Nat) < 2
  ∧ Utils.chunk ([1,2,3,4,5] : List Nat) 2 = Except.ok [[1,2],[3,4],[5]]
  ∧ ((Utils.chunk ([1,2,3,4,5] : List Nat) 2 =
        Except.ok (Utils.chunksOf [1,2,3,4,5] 2))
     ∧ (Utils.chunksOf ([1,2,3,4,5] : List Nat) 2).flatten = [1,2,3,4,5]
     ∧ (∀ j, j + 1 < (Utils.chunksOf ([1,2,3,4,5] : List Nat) 2).length →
         ((Utils.chunksOf ([1,2,3,4,5] : List Nat) 2).getD j []).length = 2)) :=
  ⟨by decide, rfl, utils_chunk_spec [1,2,3,4,5] 2 (by decide)⟩
